import Mathlib

/-!
Verification of the MusicTruth evidence-extraction and aggregation pipeline.

The definitions below are a shallow embedding of the Python sources:
`src/layers/analysis/core.py` (orchestrator, mode selection, stem routing,
weighted aggregation), `src/layers/analysis/features/*.py` (per-extractor
scoring formulas and the `FeatureResult` data model),
`src/layers/analysis/comparator.py` (cross-source comparator) and
`src/analyzer.py` (`check_stereo_analysis`).  Python floats are embedded as
rationals (`ℚ`) except where a real exponential is required, in which case
functions are parameterised by the exponential map.  Python exceptions are
embedded as `Except` values; dictionaries as insertion-ordered association
lists.
-/

namespace MusicTruth

/-- Prefix test on character lists: `startsWithL s p` is true when `p` is an
initial segment of `s`.  Used to embed Python's `in` substring operator. -/
def startsWithL : List Char → List Char → Bool
  | _, [] => true
  | [], _ :: _ => false
  | c :: cs, p :: ps => decide (c = p) && startsWithL cs ps

/-- Substring search on character lists: true when `p` occurs contiguously
inside `s`. -/
def infixL : List Char → List Char → Bool
  | [], p => p.isEmpty
  | c :: cs, p => startsWithL (c :: cs) p || infixL cs p

/-- Embedding of Python's `pat in s` substring containment on strings. -/
def strContains (s pat : String) : Bool :=
  infixL s.data pat.data

/-- The `AnalysisMode` enum from `src/config.py`. -/
inductive Mode where
  | quick
  | standard
  | deep
  | forensic
  | custom
deriving DecidableEq

/-- The `mode.value` strings of the `AnalysisMode` enum. -/
def Mode.value : Mode → String
  | .quick => "quick"
  | .standard => "standard"
  | .deep => "deep"
  | .forensic => "forensic"
  | .custom => "custom"

/-- The `should_run` decision of `Analyzer.analyze_audio`
(`src/layers/analysis/core.py`, lines 112-138): an extractor whose name
contains "forensic" runs only in FORENSIC mode; otherwise FORENSIC, DEEP and
CUSTOM run everything, STANDARD excludes names containing "structural",
"midi", "provider" or "forensic", and QUICK includes only names containing
"cutoff", "peak" or "tempo". -/
def shouldRun (mode : Mode) (name : String) : Bool :=
  if strContains name "forensic" then
    decide (mode = Mode.forensic)
  else
    match mode with
    | .forensic => true
    | .deep => true
    | .standard =>
        !(strContains name "structural" || strContains name "midi" ||
          strContains name "provider" || strContains name "forensic")
    | .quick =>
        strContains name "cutoff" || strContains name "peak" ||
          strContains name "tempo"
    | .custom => true

/-- The set (ordered list) of registry names selected to run in a mode. -/
def selected (mode : Mode) (registry : List String) : List String :=
  registry.filter (shouldRun mode)

/-- The `FeatureResult` dataclass from `src/layers/analysis/features/base.py`.
Scores and confidences are Python floats, embedded as rationals; `metrics`
and `metadata` as association lists and `flags` as an ordered list. -/
structure FeatureResult where
  feature_name : String
  score : ℚ := 0
  confidence : ℚ := 1
  metrics : List (String × String) := []
  flags : List String := []
  metadata : List (String × String) := []
deriving DecidableEq

/-- Modelled from the spec: the `Genre` enum imported by
`src/layers/analysis/core.py` from `src.config` is absent from the source
tree (only its caller is present).  The spec (§3) describes a `Genre` enum
that "includes `GENERAL` fallback"; other members are unspecified, so they
are embedded as tagged values. -/
inductive Genre where
  | general
  | specific (tag : String)
deriving DecidableEq

/-- Modelled from the spec: the `GenreProfile` entries of the
`GENRE_PROFILES` table imported by `src/layers/analysis/core.py` from
`src.config` are absent from the source tree.  The spec (§3) defines a
profile as `{tempo_stability_weight, mfcc_uniformity_weight,
spectral_contrast_weight, vocal_artifact_weight: float multipliers,
default = 1.0}`. -/
structure GenreProfile where
  tempo_stability_weight : ℚ := 1
  mfcc_uniformity_weight : ℚ := 1
  spectral_contrast_weight : ℚ := 1
  vocal_artifact_weight : ℚ := 1
deriving DecidableEq

/-- The per-result weight computed by the aggregation loop of
`Analyzer.analyze_audio` (`src/layers/analysis/core.py`, lines 176-193):
base 1.0, reassigned to 2.0 when the name contains "ml" or "provider",
reassigned to 4.0 when it contains "forensic", then multiplied by the
matching genre-profile field when the genre is not GENERAL. -/
def extractorWeight (genre : Genre) (profile : GenreProfile) (name : String) : ℚ :=
  let w1 : ℚ := if strContains name "ml" || strContains name "provider" then 2 else 1
  let w2 : ℚ := if strContains name "forensic" then 4 else w1
  if genre ≠ Genre.general then
    if strContains name "tempo" then w2 * profile.tempo_stability_weight
    else if strContains name "mfcc" then w2 * profile.mfcc_uniformity_weight
    else if strContains name "contrast" then w2 * profile.spectral_contrast_weight
    else if strContains name "vocal" || strContains name "quantization" then
      w2 * profile.vocal_artifact_weight
    else w2
  else w2

/-- Python's `int(max(1, weight * 10))` from `src/layers/analysis/core.py`
line 195: `max(1, weight*10)` is at least 1, and `int` truncates toward
zero, which on values ≥ 1 is the floor. -/
def repCount (w : ℚ) : ℕ :=
  (⌊max 1 (w * 10)⌋).toNat

/-- The expanded sample list built by the aggregation loop
(`src/layers/analysis/core.py`, lines 173-195): every feature whose score
is positive contributes `repCount` copies of its score, in feature order.
The first component of each pair is the key of the `features` dict (the
registry name used for the weight). -/
def contributions (genre : Genre) (profile : GenreProfile)
    (features : List (String × FeatureResult)) : List ℚ :=
  features.foldl
    (fun acc nr =>
      if nr.2.score > 0 then
        acc ++ List.replicate (repCount (extractorWeight genre profile nr.1)) nr.2.score
      else acc)
    []

/-- The final `ai_probability` computed from `scores` in
`src/layers/analysis/core.py`, lines 197-200: `np.mean(scores)` when the
expanded list is nonempty, `0.0` otherwise. -/
def aggregate (genre : Genre) (profile : GenreProfile)
    (features : List (String × FeatureResult)) : ℚ :=
  let scores := contributions genre profile features
  if scores.isEmpty then 0 else scores.sum / scores.length

/-- The repetition count as the claim words it: `max(1, round(weight·10))`,
with `round` rounding to the nearest integer.  To be compared against the
source's `repCount`. -/
def claimRepCount (w : ℚ) : ℕ :=
  (max 1 (round (w * 10))).toNat

/-- The aggregated probability as the claim words it: the arithmetic mean of
the multiset in which every positive-score feature contributes
`claimRepCount` copies of its score.  To be compared against the source's
`aggregate`. -/
def claimAggregate (genre : Genre) (profile : GenreProfile)
    (features : List (String × FeatureResult)) : ℚ :=
  let scores := features.foldl
    (fun acc nr =>
      if nr.2.score > 0 then
        acc ++ List.replicate (claimRepCount (extractorWeight genre profile nr.1)) nr.2.score
      else acc)
    []
  if scores.isEmpty then 0 else scores.sum / scores.length

/-- Python dict assignment `m[k] = v` on an insertion-ordered association
list: an existing key keeps its position, a new key is appended. -/
def assocSet (m : List (String × String)) (k v : String) : List (String × String) :=
  if m.any (fun p => p.1 == k) then
    m.map (fun p => if p.1 == k then (k, v) else p)
  else m ++ [(k, v)]

/-- Python `dict.update`: assign every pair of the update in order. -/
def assocUpdate (m upd : List (String × String)) : List (String × String) :=
  upd.foldl (fun m kv => assocSet m kv.1 kv.2) m

/-- Python dict lookup returning an optional value. -/
def assocGet? (m : List (String × String)) (k : String) : Option String :=
  (m.find? (fun p => p.1 == k)).map (fun p => p.2)

/-- Python `k in m` membership test on a dict. -/
def assocHas (m : List (String × String)) (k : String) : Bool :=
  m.any (fun p => p.1 == k)

/-- The `target_audio` resolution of `Analyzer.analyze_audio`
(`src/layers/analysis/core.py`, lines 114-125): the target defaults to
`input_file_map["mix"]`; it becomes `input_file_map["other"]` exactly when
the extractor name contains "forensic", the mode is FORENSIC, the name also
contains "silence" or "entropy", and an "other" stem is present (the two
`if`/`elif` branches of the source are flattened into one disjunction). -/
def targetAudio (mode : Mode) (fileMap : List (String × String)) (name : String) : String :=
  let mix := (assocGet? fileMap "mix").getD ""
  if strContains name "forensic" && decide (mode = Mode.forensic) &&
      (strContains name "silence" || strContains name "entropy") &&
      assocHas fileMap "other" then
    (assocGet? fileMap "other").getD mix
  else mix

/-- The extractor loop of `Analyzer.analyze_audio`
(`src/layers/analysis/core.py`, lines 112-161).  An extractor is embedded as
a function from the target path and the loaded audio to `Except`: an
exception raised by `extract` is an `Except.error`.  For every registered
extractor that `should_run`: when the target differs from the input path the
stem is loaded (a load failure skips the extractor, line 152); a successful
`extract` appends `(name, result)` to the features map and the result's
flags to the flag list; a raising `extract` is caught and logged only (lines
160-161) — nothing is appended for it. -/
def runExtractors {α : Type} (mode : Mode) (fileMap : List (String × String))
    (filePath : String) (loadAudio : String → Except String α) (mixAudio : α)
    (extractors : List (String × (String → α → Except String FeatureResult))) :
    List (String × FeatureResult) × List String :=
  extractors.foldl
    (fun acc nx =>
      if shouldRun mode nx.1 then
        let target := targetAudio mode fileMap nx.1
        match (if target ≠ filePath then loadAudio target else Except.ok mixAudio) with
        | Except.error _ => acc
        | Except.ok a =>
            match nx.2 target a with
            | Except.error _ => acc
            | Except.ok res => (acc.1 ++ [(nx.1, res)], acc.2 ++ res.flags)
      else acc)
    ([], [])

/-- `os.path.basename` on a POSIX path. -/
def basename (p : String) : String :=
  (p.splitOn "/").getLastD p

/-- The `results` dict of `Analyzer.analyze_audio`
(`src/layers/analysis/core.py`, lines 85-92). -/
structure AnalysisResult where
  filename : String
  mode : String
  features : List (String × FeatureResult)
  flags : List String
  ai_probability : ℚ
  metadata : List (String × String)
deriving DecidableEq

/-- The body of `Analyzer.analyze_audio` after a successful audio load
(`src/layers/analysis/core.py`, lines 85-202): build the stem map (stems are
merged into the file map only in FORENSIC mode, lines 100-110; a failed or
empty separation leaves only "mix"), run the extractor loop, aggregate, and
return the result.  `genre` and `profile` stand for the values resolved from
`metadata['genre']` via the spec-modelled `Genre`/`GenreProfile` (the lookup
table itself is absent from the source tree). -/
def runCore {α : Type} (mode : Mode) (genre : Genre) (profile : GenreProfile)
    (loadAudio : String → Except String α)
    (stems : List (String × String))
    (extractors : List (String × (String → α → Except String FeatureResult)))
    (filePath : String) (mixAudio : α)
    (metadata : List (String × String)) : AnalysisResult :=
  let fileMap :=
    if mode = Mode.forensic then assocUpdate [("mix", filePath)] stems
    else [("mix", filePath)]
  let fr := runExtractors mode fileMap filePath loadAudio mixAudio extractors
  { filename := basename filePath
    mode := mode.value
    features := fr.1
    flags := fr.2
    ai_probability := aggregate genre profile fr.1
    metadata := metadata }

/-- The three ways `Analyzer.analyze_audio` can leave its entry sequence:
a raised `FileNotFoundError`, a returned `{"error": ...}` dict (not an
exception), or a completed analysis. -/
inductive AnalyzeOutcome where
  | fileNotFound (msg : String)
  | loadFailure (error : String)
  | completed (result : AnalysisResult)
deriving DecidableEq

/-- The entry sequence of `Analyzer.analyze_audio`
(`src/layers/analysis/core.py`, lines 75-83): a missing path raises
`FileNotFoundError`; a failing audio decode is caught and returned as an
error dict; otherwise the analysis body runs. -/
def analyze_audio {α : Type} (fileExists : Bool)
    (loadAudio : String → Except String α)
    (stems : List (String × String))
    (extractors : List (String × (String → α → Except String FeatureResult)))
    (filePath : String) (mode : Mode) (genre : Genre) (profile : GenreProfile)
    (metadata : List (String × String)) : AnalyzeOutcome :=
  if !fileExists then
    AnalyzeOutcome.fileNotFound ("File not found: " ++ filePath)
  else
    match loadAudio filePath with
    | Except.error e => AnalyzeOutcome.loadFailure ("Audio load failed: " ++ e)
    | Except.ok y =>
        AnalyzeOutcome.completed
          (runCore mode genre profile loadAudio stems extractors filePath y metadata)

/-- `gaussian_score` from `src/layers/analysis/features/base.py`, lines
204-222: `amplitude * exp(-(|value-peak|**2) / (2*width**2))`.  The
exponential map is a parameter so the definition stays executable; it is
instantiated with `Real.exp` in the theorems. -/
def gaussian_score {K : Type} [LinearOrderedField K]
    (expf : K → K) (value peak width amplitude : K) : K :=
  amplitude * expf (-(|value - peak| ^ 2) / (2 * width ^ 2))

/-- `FrequencyCutoffDetector._calculate_score` from
`src/layers/analysis/features/spectral.py`, lines 68-86. -/
def cutoff_calculate_score {K : Type} [LinearOrderedField K] (expf : K → K) (c : K) : K :=
  if c < 10000 then 0.9
  else if c > 21000 then 0
  else
    max (gaussian_score expf c 16000 1000 0.8) (gaussian_score expf c 20000 1000 0.4)

/-- The frequency-cutoff score exactly as the claim words it: `0.9` below
10 kHz, `0.0` above 21 kHz, otherwise
`max(0.8·exp(−(c−16000)²/(2·1000²)), 0.4·exp(−(c−20000)²/(2·1000²)))`.
To be compared with the source's `cutoff_calculate_score`. -/
def spec_cutoff_score {K : Type} [LinearOrderedField K] (expf : K → K) (c : K) : K :=
  if c < 10000 then 0.9
  else if c > 21000 then 0
  else
    max (0.8 * expf (-((c - 16000) ^ 2) / (2 * 1000 ^ 2)))
      (0.4 * expf (-((c - 20000) ^ 2) / (2 * 1000 ^ 2)))

/-- `SpectralPeakDetector._calculate_score` from
`src/layers/analysis/features/spectral.py`, lines 162-169. -/
def peaks_calculate_score (v : ℚ) : ℚ :=
  if v > 1/10000 then 0.9 else if v > 1/100000 then 0.5 else 0

/-- `MFCCAnalyzer._check_variance_anomaly` from
`src/layers/analysis/features/spectral.py`. -/
def mfcc_check_variance_anomaly (avg_std : ℚ) : ℚ :=
  if avg_std < 5 then 0.8 else if avg_std < 8 then 0.4 else 0

/-- `MFCCAnalyzer._check_smoothness` from
`src/layers/analysis/features/spectral.py`. -/
def mfcc_check_smoothness (delta_variance : ℚ) : ℚ :=
  if delta_variance < 50 then 0.7 else if delta_variance < 100 then 0.3 else 0

/-- The MFCC extractor's score: `max(variance_score, smoothness_score)`. -/
def mfcc_score (avg_std delta_variance : ℚ) : ℚ :=
  max (mfcc_check_variance_anomaly avg_std) (mfcc_check_smoothness delta_variance)

/-- `SpectralContrastAnalyzer._check_uniformity` from
`src/layers/analysis/features/spectral.py`. -/
def contrast_check_uniformity (avg_std : ℚ) : ℚ :=
  if avg_std < 2 then 0.7 else if avg_std < 4 then 0.3 else 0

/-- `SpectralContrastAnalyzer._check_extremes` from
`src/layers/analysis/features/spectral.py`. -/
def contrast_check_extremes (max_contrast min_contrast : ℚ) : ℚ :=
  if max_contrast > 40 ∨ min_contrast < -10 then 0.6 else 0

/-- The spectral-contrast extractor's score: `max(uniformity, extremes)`. -/
def contrast_score (avg_std max_contrast min_contrast : ℚ) : ℚ :=
  max (contrast_check_uniformity avg_std) (contrast_check_extremes max_contrast min_contrast)

/-- The `ZeroCrossingRateAnalyzer` variance score from
`src/layers/analysis/features/spectral.py`. -/
def zcr_variance_score (zcr_std : ℚ) : ℚ :=
  if zcr_std < 1/100 then 0.6 else if zcr_std < 1/50 then 0.3 else 0

/-- `TempoStabilityAnalyzer._calculate_score` from
`src/layers/analysis/features/temporal.py`, lines 98-110: `0.9` below
CV 0.01, `0.0` above 0.05, else `0.9·(1−(cv−0.01)/0.04)`. -/
def tempo_calculate_score (cv : ℚ) : ℚ :=
  if cv < 1/100 then 0.9
  else if cv > 1/20 then 0
  else 0.9 * (1 - (cv - 1/100) / (1/25))

/-- `OnsetDetectionAnalyzer._check_grid_quantization`'s final thresholds
from `src/layers/analysis/features/temporal.py` (as a function of the
quantized-interval ratio). -/
def onset_grid_score (quantized_ratio : ℚ) : ℚ :=
  if quantized_ratio > 4/5 then 0.7 else if quantized_ratio > 3/5 then 0.4 else 0

/-- The onset extractor's score: `max(grid_score, regularity_score)` where
the regularity score is 0.5 when the interval CV is below 0.2. -/
def onset_score (quantized_ratio interval_cv : ℚ) : ℚ :=
  max (onset_grid_score quantized_ratio) (if interval_cv < 1/5 then 0.5 else 0)

/-- `RhythmComplexityAnalyzer._calculate_complexity_score` from
`src/layers/analysis/features/temporal.py`. -/
def rhythm_complexity_score (entropy variance : ℚ) : ℚ :=
  (min (entropy / 10) 1 + min (variance / 100) 1) / 2

/-- The rhythm extractor's AI score: `1 - complexity_score`. -/
def rhythm_ai_score (entropy variance : ℚ) : ℚ :=
  1 - rhythm_complexity_score entropy variance

/-- The `BeatHistogramAnalyzer` uniformity score from
`src/layers/analysis/features/temporal.py`. -/
def beat_histogram_score (cv : ℚ) : ℚ :=
  if cv < 3/10 then 0.6 else if cv < 1/2 then 0.3 else 0

/-- The tonal-complexity score of `ChordProgressionAnalyzer` from
`src/layers/analysis/features/harmonic.py` (`0.7` when the tonnetz standard
deviation is below 0.01). -/
def tonal_complexity_score (tonnetz_std : ℚ) : ℚ :=
  if tonnetz_std < 1/100 then 0.7 else 0

/-- The recurrence-density score of `StructuralComplexityAnalyzer` from
`src/layers/analysis/features/structural.py`. -/
def structural_recurrence_score (density : ℚ) : ℚ :=
  if density > 2/5 then 0.5 else 0

/-- The pitch-quantization score of `PitchQuantizationAnalyzer` from
`src/layers/analysis/features/vocal.py`. -/
def vocal_pitch_score (avg_deviation : ℚ) : ℚ :=
  if avg_deviation < 1/20 then 0.9 else if avg_deviation < 1/10 then 0.6 else 0

/-- The continuous-activity score of `BreathDetector` from
`src/layers/analysis/features/vocal.py`. -/
def vocal_breath_score (active_ratio : ℚ) : ℚ :=
  if active_ratio > 19/20 then 0.6 else 0

/-- The suspicion accumulation of `SilenceExtractor.extract` from
`src/layers/analysis/features/forensic.py`, lines 66-76: `+0.4` below 20%
silence, `−0.2` above 80%, `+0.4` for mean gaps under 0.15 s, clamped to
`[0,1]`. -/
def silence_suspicion (silence_pct mean_gap : ℚ) : ℚ :=
  let s := (if silence_pct < 20 then (0.4 : ℚ)
            else if silence_pct > 80 then -0.2 else 0)
         + (if mean_gap < 3/20 then (0.4 : ℚ) else 0)
  min (max s 0) 1

/-- The entropy suspicion of `EntropyExtractor.extract` from
`src/layers/analysis/features/forensic.py` (`0.8` below 1 bit). -/
def entropy_suspicion (entropy : ℚ) : ℚ :=
  if entropy < 1 then 0.8 else 0

/-- The grid-deviation score of `MIDIQuantizationAnalyzer` from
`src/layers/analysis/features/midi_features.py`. -/
def midi_quantization_score (normalized_dev : ℚ) : ℚ :=
  if normalized_dev < 1/20 then 0.8 else 0

/-- The high-frequency-sheen score of `SunoFingerprintDetector` from
`src/layers/analysis/features/provider_fingerprint.py`. -/
def suno_sheen_score (ratio : ℚ) : ℚ :=
  if ratio > 1/20 then 0.3 else 0

/-- The deep-learning detector's score from
`src/layers/analysis/features/deepfake.py`: the external classifier's
class probability for the "ai" label is passed through unchanged (0.0 when
the label is absent). -/
def deepfake_ai_score (classifier_prob : ℚ) : ℚ :=
  classifier_prob

/-- Every constant `confidence` value assigned by an extractor in
`src/layers/analysis/features/` (including the early-return error paths
with confidence 0 and the dataclass default 1.0). -/
def extractor_confidences : List ℚ :=
  [0, 0.3, 0.4, 0.5, 0.6, 0.7, 0.8, 0.85, 1]

/-- `check_stereo_analysis` from `src/analyzer.py`, lines 242-278, on a
stereo buffer given as its two channels: mid/side decomposition,
`ratio = energy(side)/energy(mid)` guarded by the zero-mid-energy early
return, score 0.2 below ratio 0.01, 0.6 above 1.0, else 0.0.  Returns
`(score, ratio)` as the source does. -/
def check_stereo_analysis (left right : List ℚ) : ℚ × ℚ :=
  let mid := List.zipWith (fun l r => (l + r) / 2) left right
  let side := List.zipWith (fun l r => (l - r) / 2) left right
  let energy_mid := (mid.map (fun x => x ^ 2)).sum
  let energy_side := (side.map (fun x => x ^ 2)).sum
  if energy_mid = 0 then (0, 0)
  else
    let ratio := energy_side / energy_mid
    let score := if ratio < 1/100 then (0.2 : ℚ) else if ratio > 1 then 0.6 else 0
    (score, ratio)

/-- The flag set a source contributes in
`CrossCheckComparator.compare_sources`
(`src/layers/analysis/comparator.py`, lines 56-61): the set of all flag
strings over all of the source's feature results. -/
def sourceFlags (results : List FeatureResult) : Finset String :=
  ((results.map (fun r => r.flags)).flatten).toFinset

/-- Python `str.lower()` on an ASCII character (flag strings produced by
the extractors are ASCII). -/
def lowerChar (c : Char) : Char :=
  if 65 ≤ c.toNat ∧ c.toNat ≤ 90 then Char.ofNat (c.toNat + 32) else c

/-- Python `str.lower()` on an ASCII string. -/
def lowerStr (s : String) : String :=
  String.mk (s.data.map lowerChar)

/-- The AI-indicator test on a common flag
(`src/layers/analysis/comparator.py`, line 75): the lowercased flag
contains "cutoff" or "perfect pitch". -/
def isAIIndicator (f : String) : Bool :=
  strContains (lowerStr f) "cutoff" || strContains (lowerStr f) "perfect pitch"

/-- `set.intersection(*all_flags_map.values())`: intersection of the
per-source flag sets, folded over the sources in order. -/
def commonFlags : List (Finset String) → Finset String
  | [] => ∅
  | s :: ss => ss.foldl (fun acc t => acc ∩ t) s

/-- The two shapes `compare_sources` can return: the
`{"status": "insufficient_sources"}` dict, or the comparison dict with its
`common_artifacts`, `source_specific_artifacts` and `conclusion` fields. -/
inductive ComparatorOutput where
  | insufficient
  | compared (common : Finset String) (specific : List (String × Finset String))
      (conclusion : String)
deriving DecidableEq

/-- The `conclusion` field of a comparison, when present. -/
def ComparatorOutput.conclusionField : ComparatorOutput → Option String
  | .insufficient => none
  | .compared _ _ c => some c

/-- The `common_artifacts` field of a comparison, when present. -/
def ComparatorOutput.commonField : ComparatorOutput → Option (Finset String)
  | .insufficient => none
  | .compared c _ _ => some c

/-- `CrossCheckComparator.compare_sources` from
`src/layers/analysis/comparator.py`, lines 30-87, on the per-source feature
results (sources in dict order): fewer than 2 sources short-circuits to the
insufficient status; otherwise the common flags are the intersection of the
per-source flag sets, the source-specific flags are the per-source
differences, and the conclusion is "Likely AI (Artifacts present in all
sources)" when some common flag passes the AI-indicator test, "Clean / High
variation between sources" when there are no common flags, and
"Inconclusive" otherwise. -/
def compare_sources (feature_sets : List (String × List FeatureResult)) :
    ComparatorOutput :=
  if feature_sets.length < 2 then ComparatorOutput.insufficient
  else
    let common := commonFlags (feature_sets.map (fun snl => sourceFlags snl.2))
    let specific := feature_sets.map (fun snl => (snl.1, sourceFlags snl.2 \ common))
    let conclusion :=
      if (common.filter (fun f => isAIIndicator f = true)).Nonempty then
        "Likely AI (Artifacts present in all sources)"
      else if common = ∅ then "Clean / High variation between sources"
      else "Inconclusive"
    ComparatorOutput.compared common specific conclusion

lemma contributions_foldl_acc (g : Genre) (p : GenreProfile)
    (fs : List (String × FeatureResult)) (acc : List ℚ) :
    fs.foldl
      (fun acc nr =>
        if nr.2.score > 0 then
          acc ++ List.replicate (repCount (extractorWeight g p nr.1)) nr.2.score
        else acc)
      acc
    = acc ++ contributions g p fs := by
  induction fs generalizing acc with
  | nil => simp [contributions]
  | cons x xs ih =>
      simp only [contributions, List.foldl_cons]
      rw [ih, ih]
      split <;> simp

lemma contributions_cons (g : Genre) (p : GenreProfile)
    (x : String × FeatureResult) (fs : List (String × FeatureResult)) :
    contributions g p (x :: fs)
      = (if x.2.score > 0 then
          List.replicate (repCount (extractorWeight g p x.1)) x.2.score
        else []) ++ contributions g p fs := by
  simp only [contributions, List.foldl_cons]
  rw [contributions_foldl_acc]
  split <;> simp [contributions]

lemma one_le_repCount (w : ℚ) : 1 ≤ repCount w := by
  have h1 : (1 : ℚ) ≤ max 1 (w * 10) := le_max_left _ _
  have h2 : (1 : ℤ) ≤ ⌊max 1 (w * 10)⌋ := by
    exact_mod_cast Int.le_floor.mpr (by exact_mod_cast h1)
  simpa [repCount] using Int.toNat_le_toNat h2

lemma contributions_sum (g : Genre) (p : GenreProfile)
    (fs : List (String × FeatureResult)) :
    (contributions g p fs).sum
      = ((fs.filter (fun nr => nr.2.score > 0)).map
          (fun nr => (repCount (extractorWeight g p nr.1) : ℚ) * nr.2.score)).sum := by
  induction fs with
  | nil => simp [contributions]
  | cons x xs ih =>
      rw [contributions_cons]
      by_cases hx : x.2.score > 0
      · simp [hx, ih, List.sum_replicate, nsmul_eq_mul]
      · simp [hx, ih]

lemma contributions_length (g : Genre) (p : GenreProfile)
    (fs : List (String × FeatureResult)) :
    (contributions g p fs).length
      = ((fs.filter (fun nr => nr.2.score > 0)).map
          (fun nr => repCount (extractorWeight g p nr.1))).sum := by
  induction fs with
  | nil => simp [contributions]
  | cons x xs ih =>
      rw [contributions_cons]
      by_cases hx : x.2.score > 0
      · simp [hx, ih]
      · simp [hx, ih]

lemma contributions_ne_nil (g : Genre) (p : GenreProfile)
    (fs : List (String × FeatureResult))
    (h : fs.filter (fun nr => nr.2.score > 0) ≠ []) :
    (contributions g p fs).length ≠ 0 := by
  rw [contributions_length]
  intro hcontra
  rcases List.exists_mem_of_ne_nil _ h with ⟨nr, hmem⟩
  have hk : repCount (extractorWeight g p nr.1)
      ∈ (fs.filter (fun nr => nr.2.score > 0)).map
          (fun nr => repCount (extractorWeight g p nr.1)) :=
    List.mem_map_of_mem _ hmem
  have hz := (List.sum_eq_zero_iff.mp hcontra) _ hk
  have := one_le_repCount (extractorWeight g p nr.1)
  omega

/-- C1 (counterexample): the claim computes the repetition count with
`round`, but the source uses Python's `int`, which truncates.  With a
non-GENERAL genre whose tempo multiplier is 1.16, the "tempo" feature's
weight is 1.16, so the source expands it into `int(11.6) = 11` copies while
the claim would use `round(11.6) = 12`; with a second feature the two means
differ (16/21 versus 17/22). -/
theorem aggregate_round_counterexample :
    aggregate (Genre.specific "techno") { tempo_stability_weight := 29/25 }
        [("tempo", { feature_name := "tempo", score := 1 }),
         ("x", { feature_name := "x", score := 1/2 })]
      ≠ claimAggregate (Genre.specific "techno") { tempo_stability_weight := 29/25 }
        [("tempo", { feature_name := "tempo", score := 1 }),
         ("x", { feature_name := "x", score := 1/2 })] := by
  have hsrc : aggregate (Genre.specific "techno") { tempo_stability_weight := 29/25 }
      [("tempo", { feature_name := "tempo", score := 1 }),
       ("x", { feature_name := "x", score := 1/2 })] = 16/21 := by
    simp +decide only [aggregate, contributions, List.foldl_cons, List.foldl_nil,
      extractorWeight, repCount, strContains, infixL, startsWithL]
    have h1 : Int.toNat 11 = 11 := by decide
    have h2 : Int.toNat 10 = 10 := by decide
    norm_num [h1, h2]
  have hclaim : claimAggregate (Genre.specific "techno") { tempo_stability_weight := 29/25 }
      [("tempo", { feature_name := "tempo", score := 1 }),
       ("x", { feature_name := "x", score := 1/2 })] = 17/22 := by
    simp +decide only [claimAggregate, List.foldl_cons, List.foldl_nil,
      extractorWeight, claimRepCount, strContains, infixL, startsWithL]
    have hr : round ((58:ℚ)/5) = 12 := by norm_num [round_eq]
    have h1 : ((1:ℤ) ⊔ 12).toNat = 12 := by decide
    have h2 : Int.toNat 10 = 10 := by decide
    have h3 : Int.toNat 12 = 12 := by decide
    norm_num [hr, h1, h2, h3]
  rw [hsrc, hclaim]
  norm_num

/-- C1 (amended): for every features map and genre profile, the aggregated
`ai_probability` is the arithmetic mean of the multiset in which each
positive-score feature contributes `int(max(1, weight·10))` copies of its
score (truncation, not rounding), i.e. the quotient of the count-weighted
score sum by the total count, whenever some feature has positive score. -/
theorem aggregate_weighted_mean (g : Genre) (p : GenreProfile)
    (fs : List (String × FeatureResult))
    (h : fs.filter (fun nr => nr.2.score > 0) ≠ []) :
    aggregate g p fs
      = ((fs.filter (fun nr => nr.2.score > 0)).map
          (fun nr => (repCount (extractorWeight g p nr.1) : ℚ) * nr.2.score)).sum
        / ((fs.filter (fun nr => nr.2.score > 0)).map
          (fun nr => (repCount (extractorWeight g p nr.1) : ℚ))).sum := by
  have hne := contributions_ne_nil g p fs h
  have hlen : ((contributions g p fs).length : ℚ)
      = ((fs.filter (fun nr => nr.2.score > 0)).map
          (fun nr => (repCount (extractorWeight g p nr.1) : ℚ))).sum := by
    rw [contributions_length]
    push_cast [List.map_map]
    rfl
  unfold aggregate
  rw [if_neg (by simpa [List.isEmpty_iff] using fun hc => hne (by simp [hc]))]
  rw [contributions_sum, hlen]

/-- Witness for `aggregate_weighted_mean` at a concrete two-feature map. -/
theorem aggregate_weighted_mean_witness :
    aggregate Genre.general {} [("a", { feature_name := "a", score := 1 }),
        ("forensic_b", { feature_name := "forensic_b", score := 1/2 })]
      = (([("a", ({ feature_name := "a", score := 1 } : FeatureResult)),
          ("forensic_b", { feature_name := "forensic_b", score := 1/2 })].filter
            (fun nr => nr.2.score > 0)).map
          (fun nr => (repCount (extractorWeight Genre.general {} nr.1) : ℚ) * nr.2.score)).sum
        / (([("a", ({ feature_name := "a", score := 1 } : FeatureResult)),
          ("forensic_b", { feature_name := "forensic_b", score := 1/2 })].filter
            (fun nr => nr.2.score > 0)).map
          (fun nr => (repCount (extractorWeight Genre.general {} nr.1) : ℚ))).sum :=
  aggregate_weighted_mean Genre.general {} _ (by decide)

/-- C10: the aggregation never reads `confidence`: two features maps that
agree on every entry's key, score, metrics and flags (confidences
arbitrary) produce the same `ai_probability`. -/
theorem aggregate_ignores_confidence (g : Genre) (p : GenreProfile)
    (fs fs' : List (String × FeatureResult))
    (h : List.Forall₂
      (fun a b => a.1 = b.1 ∧ a.2.score = b.2.score ∧
        a.2.metrics = b.2.metrics ∧ a.2.flags = b.2.flags) fs fs') :
    aggregate g p fs = aggregate g p fs' := by
  have hc : contributions g p fs = contributions g p fs' := by
    induction h with
    | nil => rfl
    | cons hab _ ih =>
        rw [contributions_cons, contributions_cons, ih, hab.1, hab.2.1]
  unfold aggregate
  rw [hc]

/-- Witness for `aggregate_ignores_confidence`: two singleton maps differing
only in confidence (0.9 versus 0.1) aggregate identically. -/
theorem aggregate_ignores_confidence_witness :
    aggregate Genre.general {}
        [("a", { feature_name := "a", score := 1/2, confidence := 9/10 })]
      = aggregate Genre.general {}
        [("a", { feature_name := "a", score := 1/2, confidence := 1/10 })] :=
  aggregate_ignores_confidence Genre.general {} _ _
    (List.Forall₂.cons ⟨rfl, rfl, rfl, rfl⟩ List.Forall₂.nil)

/-- C4 (counterexample): mode monotonicity fails for an arbitrary registry:
the name "tempo_midi" matches QUICK's "tempo" pattern but also STANDARD's
"midi" exclusion, so it is selected in QUICK mode yet not in STANDARD mode. -/
theorem mode_monotonicity_counterexample :
    "tempo_midi" ∈ selected Mode.quick ["tempo_midi"] ∧
    "tempo_midi" ∉ selected Mode.standard ["tempo_midi"] ∧
    ¬ selected Mode.quick ["tempo_midi"] ⊆ selected Mode.standard ["tempo_midi"] := by
  have h1 : "tempo_midi" ∈ selected Mode.quick ["tempo_midi"] := by
    simp +decide [selected]
  have h2 : "tempo_midi" ∉ selected Mode.standard ["tempo_midi"] := by
    simp +decide [selected]
  exact ⟨h1, h2, fun hsub => h2 (hsub h1)⟩

/-- C4 (amended): for any registry, STANDARD's selection is a subset of
DEEP's and QUICK's is a subset of DEEP's; QUICK's is a subset of STANDARD's
provided no registered name matching a QUICK pattern ("cutoff", "peak",
"tempo") also matches a STANDARD exclusion ("structural", "midi",
"provider", "forensic"). -/
lemma shouldRun_standard_eq (n : String) :
    shouldRun Mode.standard n
      = !(strContains n "structural" || strContains n "midi" ||
          strContains n "provider" || strContains n "forensic") := by
  unfold shouldRun
  by_cases hf : strContains n "forensic" = true
  · simp [hf]
  · simp [hf]

lemma shouldRun_deep_eq (n : String) :
    shouldRun Mode.deep n = !(strContains n "forensic") := by
  unfold shouldRun
  by_cases hf : strContains n "forensic" = true
  · simp [hf]
  · simp [hf]

lemma shouldRun_quick_eq (n : String) :
    shouldRun Mode.quick n
      = (!(strContains n "forensic") &&
          (strContains n "cutoff" || strContains n "peak" || strContains n "tempo")) := by
  unfold shouldRun
  by_cases hf : strContains n "forensic" = true
  · simp [hf]
  · simp [hf]

theorem mode_monotonicity_amended (reg : List String) :
    selected Mode.standard reg ⊆ selected Mode.deep reg ∧
    selected Mode.quick reg ⊆ selected Mode.deep reg ∧
    ((∀ n ∈ reg,
        (strContains n "cutoff" || strContains n "peak" || strContains n "tempo") = true →
        (strContains n "structural" || strContains n "midi" ||
          strContains n "provider" || strContains n "forensic") = false) →
      selected Mode.quick reg ⊆ selected Mode.standard reg) := by
  refine ⟨?_, ?_, ?_⟩
  · intro n hn
    rw [selected, List.mem_filter] at hn ⊢
    refine ⟨hn.1, ?_⟩
    have h2 := hn.2
    rw [shouldRun_standard_eq] at h2
    rw [shouldRun_deep_eq]
    simp only [Bool.not_eq_true', Bool.or_eq_false_iff] at h2
    simp [h2.2]
  · intro n hn
    rw [selected, List.mem_filter] at hn ⊢
    refine ⟨hn.1, ?_⟩
    have h2 := hn.2
    rw [shouldRun_quick_eq] at h2
    rw [shouldRun_deep_eq]
    simp only [Bool.and_eq_true] at h2
    exact h2.1
  · intro hcond n hn
    rw [selected, List.mem_filter] at hn ⊢
    refine ⟨hn.1, ?_⟩
    have h2 := hn.2
    rw [shouldRun_quick_eq] at h2
    rw [shouldRun_standard_eq]
    simp only [Bool.and_eq_true] at h2
    simp [hcond n hn.1 h2.2]

/-- Witness for `mode_monotonicity_amended` on a registry of actual
extractor names, for which the QUICK patterns and the STANDARD exclusions
are disjoint. -/
theorem mode_monotonicity_amended_witness :
    selected Mode.quick ["frequency_cutoff", "tempo_stability", "silence_forensics"]
        ⊆ selected Mode.standard ["frequency_cutoff", "tempo_stability", "silence_forensics"] ∧
    selected Mode.standard ["frequency_cutoff", "tempo_stability", "silence_forensics"]
        ⊆ selected Mode.deep ["frequency_cutoff", "tempo_stability", "silence_forensics"] :=
  ⟨(mode_monotonicity_amended
      ["frequency_cutoff", "tempo_stability", "silence_forensics"]).2.2 (by decide),
   (mode_monotonicity_amended
      ["frequency_cutoff", "tempo_stability", "silence_forensics"]).1⟩

lemma runExtractors_failing_step {α : Type} (mode : Mode)
    (fm : List (String × String)) (fp : String)
    (load : String → Except String α) (mix : α)
    (pre post : List (String × (String → α → Except String FeatureResult)))
    (n msg : String) :
    runExtractors mode fm fp load mix
        (pre ++ (n, fun _ _ => Except.error msg) :: post)
      = runExtractors mode fm fp load mix (pre ++ post) := by
  unfold runExtractors
  rw [List.foldl_append, List.foldl_append, List.foldl_cons]
  congr 1
  generalize List.foldl _ ([], []) pre = acc
  dsimp only
  split
  · split
    · rfl
    · rfl
  · rfl

/-- C3 (amended): an extractor whose `extract` call throws is caught at the
call site and contributes nothing: the whole run (features map, flags,
aggregation) equals the run in which that extractor is absent; in
particular all remaining extractors and the aggregation still execute, but
no zero-score `FeatureResult` is recorded for the failing extractor. -/
theorem failing_extractor_isolated {α : Type} (mode : Mode) (genre : Genre)
    (profile : GenreProfile) (load : String → Except String α)
    (stems : List (String × String))
    (pre post : List (String × (String → α → Except String FeatureResult)))
    (n msg fp : String) (mix : α) (md : List (String × String)) :
    runCore mode genre profile load stems
        (pre ++ (n, fun _ _ => Except.error msg) :: post) fp mix md
      = runCore mode genre profile load stems (pre ++ post) fp mix md := by
  simp only [runCore, runExtractors_failing_step]

/-- C3 (counterexample): in a STANDARD run of three extractors where the
middle one ("boom") throws, the features map contains entries for "alpha"
and "charlie" only — the failing extractor does not contribute any
`FeatureResult` (no `score=0`/`metrics.error` entry), contrary to the
claim; the remaining extractors and the aggregation still ran. -/
theorem failing_extractor_counterexample :
    ((runCore Mode.standard Genre.general {} (fun _ => Except.ok ()) []
        [("alpha", fun _ _ => Except.ok { feature_name := "alpha", score := 1/2 }),
         ("boom", fun _ _ => Except.error "ValueError"),
         ("charlie", fun _ _ => Except.ok { feature_name := "charlie", score := 1/2 })]
        "song.wav" () []).features.map Prod.fst = ["alpha", "charlie"]) ∧
    (¬ ∃ r, ("boom", r) ∈ (runCore Mode.standard Genre.general {} (fun _ => Except.ok ()) []
        [("alpha", fun _ _ => Except.ok { feature_name := "alpha", score := 1/2 }),
         ("boom", fun _ _ => Except.error "ValueError"),
         ("charlie", fun _ _ => Except.ok { feature_name := "charlie", score := 1/2 })]
        "song.wav" () []).features) ∧
    (runCore Mode.standard Genre.general {} (fun _ => Except.ok ()) []
        [("alpha", fun _ _ => Except.ok { feature_name := "alpha", score := 1/2 }),
         ("boom", fun _ _ => Except.error "ValueError"),
         ("charlie", fun _ _ => Except.ok { feature_name := "charlie", score := 1/2 })]
        "song.wav" () []).ai_probability = 1/2 := by
  refine ⟨by decide, ?_, ?_⟩
  · rintro ⟨r, hr⟩
    have : ("boom", r).1 ∈ (List.map Prod.fst
        [("alpha", ({ feature_name := "alpha", score := 1/2 } : FeatureResult)),
         ("charlie", { feature_name := "charlie", score := 1/2 })]) :=
      List.mem_map_of_mem Prod.fst (by exact hr)
    simp at this
  · have h2 : Int.toNat 10 = 10 := by decide
    simp +decide [runCore, runExtractors, aggregate, contributions, extractorWeight,
      repCount, strContains, infixL, startsWithL, targetAudio, shouldRun,
      List.foldl_cons, List.foldl_nil, h2]
    norm_num

/-- C2 (counterexample): first, a forensic-named extractor whose name lacks
"silence"/"entropy" ("pitch_forensic") is routed to the mix even though an
"other" stem is present, contrary to the claim; second, when the "other"
stem is absent and the mix is substituted for `silence_forensics`, nothing
records the substitution — the stored feature result's metadata and the
result's top-level metadata are exactly what the extractor and the caller
supplied. -/
theorem forensic_routing_counterexample :
    (targetAudio Mode.forensic [("mix", "m.wav"), ("other", "o.wav")] "pitch_forensic"
        = "m.wav") ∧
    ((runCore Mode.forensic Genre.general {} (fun _ => Except.ok ()) []
        [("silence_forensics",
          fun _ _ => Except.ok { feature_name := "silence_forensics", score := 7/10 })]
        "song.wav" () [("genre", "pop")]).features.map (fun nr => nr.2.metadata)
        = [[]]) ∧
    ((runCore Mode.forensic Genre.general {} (fun _ => Except.ok ()) []
        [("silence_forensics",
          fun _ _ => Except.ok { feature_name := "silence_forensics", score := 7/10 })]
        "song.wav" () [("genre", "pop")]).metadata = [("genre", "pop")]) := by
  refine ⟨by decide, by decide, by decide⟩

/-- C2 (amended): routing to the "other" stem happens exactly for
forensic-named extractors whose name also contains "silence" or "entropy",
in FORENSIC mode, when the stem is present; with no "other" stem, or for a
non-forensic name, the target is the mix; and no substitution is ever
recorded — the analysis result's metadata is exactly the caller-supplied
metadata. -/
lemma runExtractors_mem_acc {α : Type} (mode : Mode) (fm : List (String × String))
    (fp : String) (load : String → Except String α) (mix : α) :
    ∀ (xs : List (String × (String → α → Except String FeatureResult)))
      (acc : List (String × FeatureResult) × List String)
      (name : String) (res : FeatureResult),
      (name, res) ∈ (xs.foldl
        (fun acc nx =>
          if shouldRun mode nx.1 then
            let target := targetAudio mode fm nx.1
            match (if target ≠ fp then load target else Except.ok mix) with
            | Except.error _ => acc
            | Except.ok a =>
                match nx.2 target a with
                | Except.error _ => acc
                | Except.ok r => (acc.1 ++ [(nx.1, r)], acc.2 ++ r.flags)
          else acc)
        acc).1 →
      (name, res) ∈ acc.1 ∨
        ∃ ex a, (name, ex) ∈ xs ∧ shouldRun mode name = true ∧
          (if targetAudio mode fm name ≠ fp then load (targetAudio mode fm name)
            else Except.ok mix) = Except.ok a ∧
          ex (targetAudio mode fm name) a = Except.ok res := by
  intro xs
  induction xs with
  | nil =>
      intro acc name res h
      exact Or.inl h
  | cons x xs ih =>
      intro acc name res h
      rw [List.foldl_cons] at h
      rcases ih _ name res h with hacc | ⟨ex, a, hmem, hr, hload, hex⟩
      · by_cases hrun : shouldRun mode x.1 = true
        · rw [if_pos hrun] at hacc
          dsimp only at hacc
          rcases hL : (if targetAudio mode fm x.1 ≠ fp then load (targetAudio mode fm x.1)
              else Except.ok mix) with e | a0
          · rw [hL] at hacc
            exact Or.inl hacc
          · rw [hL] at hacc
            dsimp only at hacc
            rcases hE : x.2 (targetAudio mode fm x.1) a0 with e2 | r
            · rw [hE] at hacc
              exact Or.inl hacc
            · rw [hE] at hacc
              dsimp only at hacc
              rcases List.mem_append.mp hacc with h1 | h2
              · exact Or.inl h1
              · have heq := List.mem_singleton.mp h2
                have hn : name = x.1 := congrArg Prod.fst heq
                have hres : res = r := congrArg Prod.snd heq
                subst hn
                subst hres
                refine Or.inr ⟨x.2, a0, ?_, hrun, hL, hE⟩
                rw [Prod.mk.eta]
                exact List.mem_cons_self x xs
        · rw [if_neg hrun] at hacc
          exact Or.inl hacc
      · exact Or.inr ⟨ex, a, List.mem_cons_of_mem x hmem, hr, hload, hex⟩

theorem forensic_routing_amended {α : Type} (mode : Mode)
    (fm : List (String × String)) (name : String) (genre : Genre)
    (profile : GenreProfile) (load : String → Except String α)
    (stems : List (String × String))
    (extractors : List (String × (String → α → Except String FeatureResult)))
    (fp : String) (mix : α) (md : List (String × String)) :
    (strContains name "forensic" = true →
      (strContains name "silence" || strContains name "entropy") = true →
      assocHas fm "other" = true →
      targetAudio Mode.forensic fm name
        = (assocGet? fm "other").getD ((assocGet? fm "mix").getD "")) ∧
    (assocHas fm "other" = false →
      targetAudio mode fm name = (assocGet? fm "mix").getD "") ∧
    (strContains name "forensic" = false →
      targetAudio mode fm name = (assocGet? fm "mix").getD "") ∧
    ((strContains name "silence" || strContains name "entropy") = false →
      targetAudio mode fm name = (assocGet? fm "mix").getD "") ∧
    (mode ≠ Mode.forensic →
      targetAudio mode fm name = (assocGet? fm "mix").getD "") ∧
    ((runCore mode genre profile load stems extractors fp mix md).metadata = md) ∧
    (∀ nm res, (nm, res)
        ∈ (runCore mode genre profile load stems extractors fp mix md).features →
      ∃ ex a, (nm, ex) ∈ extractors ∧ shouldRun mode nm = true ∧
        (if targetAudio mode
              (if mode = Mode.forensic then assocUpdate [("mix", fp)] stems
               else [("mix", fp)]) nm ≠ fp
          then load (targetAudio mode
              (if mode = Mode.forensic then assocUpdate [("mix", fp)] stems
               else [("mix", fp)]) nm)
          else Except.ok mix) = Except.ok a ∧
        ex (targetAudio mode
              (if mode = Mode.forensic then assocUpdate [("mix", fp)] stems
               else [("mix", fp)]) nm) a = Except.ok res) := by
  refine ⟨?_, ?_, ?_, ?_, ?_, rfl, ?_⟩
  · intro h1 h2 h3
    unfold targetAudio
    simp [h1, h2, h3]
  · intro h
    unfold targetAudio
    simp [h]
  · intro h
    unfold targetAudio
    simp [h]
  · intro h
    unfold targetAudio
    simp [h]
  · intro h
    unfold targetAudio
    simp [h]
  · intro nm res h
    have h0 : (nm, res) ∈ (runExtractors mode
        (if mode = Mode.forensic then assocUpdate [("mix", fp)] stems
         else [("mix", fp)]) fp load mix extractors).1 := h
    have h' := runExtractors_mem_acc mode
        (if mode = Mode.forensic then assocUpdate [("mix", fp)] stems
         else [("mix", fp)]) fp load mix extractors ([], []) nm res h0
    rcases h' with habs | hgood
    · exact absurd habs (List.not_mem_nil _)
    · exact hgood

/-- Witness for `forensic_routing_amended`: with both stems present,
`silence_forensics` is routed to the "other" entry, while the
forensic-named `pitch_forensic` (no "silence"/"entropy") stays on the mix
even though "other" is present. -/
theorem forensic_routing_amended_witness :
    (targetAudio Mode.forensic [("mix", "m.wav"), ("other", "o.wav")] "silence_forensics"
      = (assocGet? [("mix", "m.wav"), ("other", "o.wav")] "other").getD
          ((assocGet? [("mix", "m.wav"), ("other", "o.wav")] "mix").getD "")) ∧
    (targetAudio Mode.forensic [("mix", "m.wav"), ("other", "o.wav")] "pitch_forensic"
      = (assocGet? [("mix", "m.wav"), ("other", "o.wav")] "mix").getD "") :=
  ⟨(forensic_routing_amended (α := Unit) Mode.forensic
      [("mix", "m.wav"), ("other", "o.wav")] "silence_forensics" Genre.general {}
      (fun _ => Except.ok ()) [] [] "f" () []).1 (by decide) (by decide) (by decide),
   (forensic_routing_amended (α := Unit) Mode.forensic
      [("mix", "m.wav"), ("other", "o.wav")] "pitch_forensic" Genre.general {}
      (fun _ => Except.ok ()) [] [] "f" () []).2.2.2.1 (by decide)⟩

/-- C8: if the path does not exist the call fails with the
`FileNotFoundError` outcome; if the path exists but decoding throws, the
call returns the error-dict outcome (a value, not an exception). -/
theorem analyze_error_handling {α : Type} (fileExists : Bool)
    (load : String → Except String α) (stems : List (String × String))
    (extractors : List (String × (String → α → Except String FeatureResult)))
    (fp : String) (mode : Mode) (genre : Genre) (profile : GenreProfile)
    (md : List (String × String)) :
    (fileExists = false →
      analyze_audio fileExists load stems extractors fp mode genre profile md
        = AnalyzeOutcome.fileNotFound ("File not found: " ++ fp)) ∧
    (∀ e, fileExists = true → load fp = Except.error e →
      analyze_audio fileExists load stems extractors fp mode genre profile md
        = AnalyzeOutcome.loadFailure ("Audio load failed: " ++ e)) := by
  constructor
  · intro h
    subst h
    rfl
  · intro e h he
    subst h
    unfold analyze_audio
    simp [he]

/-- Witness for `analyze_error_handling`: a missing file and a failing
decoder at concrete inputs. -/
theorem analyze_error_handling_witness :
    (analyze_audio (α := Unit) false (fun _ => Except.ok ()) [] [] "song.wav"
        Mode.standard Genre.general {} []
      = AnalyzeOutcome.fileNotFound ("File not found: " ++ "song.wav")) ∧
    (analyze_audio (α := Unit) true (fun _ => Except.error "decode failed") [] []
        "song.wav" Mode.standard Genre.general {} []
      = AnalyzeOutcome.loadFailure ("Audio load failed: " ++ "decode failed")) :=
  ⟨(analyze_error_handling false (fun _ => Except.ok ()) [] [] "song.wav"
      Mode.standard Genre.general {} []).1 rfl,
   (analyze_error_handling true (fun _ => Except.error "decode failed") [] []
      "song.wav" Mode.standard Genre.general {} []).2 "decode failed" rfl rfl⟩

/-- C6: the frequency-cutoff detector's score is exactly the claim's
piecewise formula: `0.9` when `cutoff < 10000`, `0.0` when
`cutoff > 21000`, and otherwise the maximum of the two Gaussian bumps
`0.8·exp(−(c−16000)²/(2·1000²))` and `0.4·exp(−(c−20000)²/(2·1000²))`. -/
theorem cutoff_score_matches_claim (c : ℝ) :
    cutoff_calculate_score Real.exp c = spec_cutoff_score Real.exp c := by
  unfold cutoff_calculate_score spec_cutoff_score gaussian_score
  simp only [sq_abs]

/-- C5: every extractor's score-computation function maps its (arbitrary
real/rational) input metrics into `[0,1]`, and every constant confidence an
extractor assigns lies in `[0,1]`.  The only non-structural hypotheses are
the mathematically guaranteed ones: the exponential map is nonnegative and
at most 1 on nonpositive arguments; Shannon entropy and variance are
nonnegative; the external classifier emits a probability in `[0,1]`. -/
theorem scores_and_confidences_in_unit_interval :
    (∀ expf : ℝ → ℝ, (∀ x, 0 ≤ expf x) → (∀ x, x ≤ 0 → expf x ≤ 1) →
      ∀ c : ℝ, 0 ≤ cutoff_calculate_score expf c ∧ cutoff_calculate_score expf c ≤ 1) ∧
    (∀ v, 0 ≤ peaks_calculate_score v ∧ peaks_calculate_score v ≤ 1) ∧
    (∀ a d, 0 ≤ mfcc_score a d ∧ mfcc_score a d ≤ 1) ∧
    (∀ a mx mn, 0 ≤ contrast_score a mx mn ∧ contrast_score a mx mn ≤ 1) ∧
    (∀ z, 0 ≤ zcr_variance_score z ∧ zcr_variance_score z ≤ 1) ∧
    (∀ cv, 0 ≤ tempo_calculate_score cv ∧ tempo_calculate_score cv ≤ 1) ∧
    (∀ q icv, 0 ≤ onset_score q icv ∧ onset_score q icv ≤ 1) ∧
    (∀ e v, 0 ≤ e → 0 ≤ v → 0 ≤ rhythm_ai_score e v ∧ rhythm_ai_score e v ≤ 1) ∧
    (∀ cv, 0 ≤ beat_histogram_score cv ∧ beat_histogram_score cv ≤ 1) ∧
    (∀ t, 0 ≤ tonal_complexity_score t ∧ tonal_complexity_score t ≤ 1) ∧
    (∀ d, 0 ≤ structural_recurrence_score d ∧ structural_recurrence_score d ≤ 1) ∧
    (∀ dev, 0 ≤ vocal_pitch_score dev ∧ vocal_pitch_score dev ≤ 1) ∧
    (∀ ar, 0 ≤ vocal_breath_score ar ∧ vocal_breath_score ar ≤ 1) ∧
    (∀ pct gap, 0 ≤ silence_suspicion pct gap ∧ silence_suspicion pct gap ≤ 1) ∧
    (∀ e, 0 ≤ entropy_suspicion e ∧ entropy_suspicion e ≤ 1) ∧
    (∀ nd, 0 ≤ midi_quantization_score nd ∧ midi_quantization_score nd ≤ 1) ∧
    (∀ r, 0 ≤ suno_sheen_score r ∧ suno_sheen_score r ≤ 1) ∧
    (∀ p0, 0 ≤ p0 → p0 ≤ 1 → 0 ≤ deepfake_ai_score p0 ∧ deepfake_ai_score p0 ≤ 1) ∧
    (∀ l r0, 0 ≤ (check_stereo_analysis l r0).1 ∧ (check_stereo_analysis l r0).1 ≤ 1) ∧
    (∀ q ∈ extractor_confidences, 0 ≤ q ∧ q ≤ 1) := by
  refine ⟨?_, ?_, ?_, ?_, ?_, ?_, ?_, ?_, ?_, ?_, ?_, ?_, ?_, ?_, ?_, ?_, ?_, ?_, ?_, ?_⟩
  · intro expf hpos hle c
    have key : ∀ peak amp : ℝ, 0 ≤ amp → amp ≤ 1 →
        0 ≤ gaussian_score expf c peak 1000 amp ∧ gaussian_score expf c peak 1000 amp ≤ 1 := by
      intro peak amp h0 h1
      unfold gaussian_score
      have harg : -(|c - peak| ^ 2) / (2 * (1000 : ℝ) ^ 2) ≤ 0 := by
        apply div_nonpos_of_nonpos_of_nonneg
        · exact neg_nonpos.mpr (by positivity)
        · norm_num
      refine ⟨mul_nonneg h0 (hpos _), ?_⟩
      calc amp * expf (-(|c - peak| ^ 2) / (2 * (1000 : ℝ) ^ 2))
          ≤ amp * 1 := mul_le_mul_of_nonneg_left (hle _ harg) h0
        _ = amp := mul_one amp
        _ ≤ 1 := h1
    unfold cutoff_calculate_score
    split_ifs with h1 h2
    · norm_num
    · norm_num
    · refine ⟨le_max_of_le_left (key 16000 0.8 (by norm_num) (by norm_num)).1, ?_⟩
      exact max_le (key 16000 0.8 (by norm_num) (by norm_num)).2
        (key 20000 0.4 (by norm_num) (by norm_num)).2
  · intro v
    unfold peaks_calculate_score
    split_ifs <;> norm_num
  · intro a d
    unfold mfcc_score mfcc_check_variance_anomaly mfcc_check_smoothness
    split_ifs <;> norm_num
  · intro a mx mn
    unfold contrast_score contrast_check_uniformity contrast_check_extremes
    split_ifs <;> norm_num
  · intro z
    unfold zcr_variance_score
    split_ifs <;> norm_num
  · intro cv
    unfold tempo_calculate_score
    split_ifs with h1 h2
    · norm_num
    · norm_num
    · push_neg at h1 h2
      constructor
      · nlinarith
      · nlinarith
  · intro q icv
    unfold onset_score onset_grid_score
    split_ifs <;> simp_all <;> norm_num
  · intro e v he hv
    unfold rhythm_ai_score rhythm_complexity_score
    have h1 : (0:ℚ) ≤ min (e / 10) 1 := le_min (by positivity) (by norm_num)
    have h2 : (0:ℚ) ≤ min (v / 100) 1 := le_min (by positivity) (by norm_num)
    have h3 : min (e / 10) 1 ≤ 1 := min_le_right _ _
    have h4 : min (v / 100) 1 ≤ 1 := min_le_right _ _
    constructor
    · nlinarith
    · nlinarith
  · intro cv
    unfold beat_histogram_score
    split_ifs <;> norm_num
  · intro t
    unfold tonal_complexity_score
    split_ifs <;> norm_num
  · intro d
    unfold structural_recurrence_score
    split_ifs <;> norm_num
  · intro dev
    unfold vocal_pitch_score
    split_ifs <;> norm_num
  · intro ar
    unfold vocal_breath_score
    split_ifs <;> norm_num
  · intro pct gap
    unfold silence_suspicion
    refine ⟨le_min (le_max_right _ _) (by norm_num), min_le_right _ _⟩
  · intro e
    unfold entropy_suspicion
    split_ifs <;> norm_num
  · intro nd
    unfold midi_quantization_score
    split_ifs <;> norm_num
  · intro r
    unfold suno_sheen_score
    split_ifs <;> norm_num
  · intro p0 h0 h1
    exact ⟨h0, h1⟩
  · intro l r0
    unfold check_stereo_analysis
    dsimp only
    split_ifs <;> norm_num
  · intro q hq
    unfold extractor_confidences at hq
    fin_cases hq <;> norm_num

/-- Witness for `scores_and_confidences_in_unit_interval`: the
hypothesis-bearing conjuncts applied at concrete inputs (the real
exponential, entropy 2 and variance 50, classifier probability 1/2). -/
theorem scores_in_unit_interval_witness :
    (0 ≤ cutoff_calculate_score Real.exp 16000 ∧
      cutoff_calculate_score Real.exp 16000 ≤ 1) ∧
    (0 ≤ rhythm_ai_score 2 50 ∧ rhythm_ai_score 2 50 ≤ 1) ∧
    (0 ≤ deepfake_ai_score (1/2) ∧ deepfake_ai_score (1/2) ≤ 1) := by
  obtain ⟨hcut, -, -, -, -, -, -, hrhy, -, -, -, -, -, -, -, -, -, hdeep, -, -⟩ :=
    scores_and_confidences_in_unit_interval
  refine ⟨hcut Real.exp (fun x => Real.exp_nonneg x)
      (fun x hx => Real.exp_le_one_iff.mpr hx) 16000, ?_, ?_⟩
  · exact hrhy 2 50 (by norm_num) (by norm_num)
  · exact hdeep (1/2) (by norm_num) (by norm_num)

lemma zipWith_self {α β : Type} (f : α → α → β) (l : List α) :
    List.zipWith f l l = l.map (fun x => f x x) := by
  induction l with
  | nil => rfl
  | cons x xs ih => simp [List.zipWith, ih]

/-- C9 (counterexample): the claim fails on the all-zero stereo buffer:
its channels are identical but the zero-mid-energy guard returns
`(score, ratio) = (0, 0)`, so the score is `0.0`, not `0.2`. -/
theorem stereo_duplicated_mono_counterexample :
    ¬ ((check_stereo_analysis [0] [0]).2 = 0 ∧
       (check_stereo_analysis [0] [0]).1 = 0.2) := by
  intro h
  have h1 := h.2
  norm_num [check_stereo_analysis] at h1

/-- C9 (amended): a duplicated-mono stereo buffer with nonzero energy
yields side/mid ratio exactly `0.0` and score exactly `0.2`; the all-zero
buffer instead hits the zero-mid-energy guard and returns score `0.0`. -/
theorem stereo_duplicated_mono (l : List ℚ)
    (h : (l.map (fun x => x ^ 2)).sum ≠ 0) :
    check_stereo_analysis l l = (0.2, 0) := by
  unfold check_stereo_analysis
  rw [zipWith_self, zipWith_self]
  have hmid : ((l.map (fun x => (x + x) / 2)).map (fun x => x ^ 2)).sum
      = (l.map (fun x => x ^ 2)).sum := by
    rw [List.map_map]
    congr 1
    apply List.map_congr_left
    intro x _
    show ((x + x) / 2) ^ 2 = x ^ 2
    ring
  have hside : ((l.map (fun x => (x - x) / 2)).map (fun x => x ^ 2)).sum = 0 := by
    rw [List.map_map]
    have : l.map ((fun x => x ^ 2) ∘ fun x => (x - x) / 2) = l.map (fun _ => (0:ℚ)) := by
      apply List.map_congr_left
      intro x _
      show ((x - x) / 2) ^ 2 = 0
      ring
    rw [this]
    simp
  dsimp only
  rw [hmid, hside, if_neg h]
  have : (0 : ℚ) / (l.map (fun x => x ^ 2)).sum = 0 := zero_div _
  rw [this]
  norm_num

/-- Witness for `stereo_duplicated_mono`: the one-sample buffer `[1]`
duplicated across channels. -/
theorem stereo_duplicated_mono_witness :
    check_stereo_analysis [1] [1] = (0.2, 0) :=
  stereo_duplicated_mono [1] (by norm_num)

/-- C7: with fewer than 2 sources the comparator returns the distinguished
insufficient status; with at least 2, the common artifacts are exactly the
intersection of the per-source flag sets, and the conclusion is the
"Likely AI" variant exactly when some common flag is an AI indicator
(cutoff- or perfect-pitch-like text), the "Clean" variant exactly when the
intersection is empty, and "Inconclusive" otherwise. -/
theorem comparator_conclusions (input : List (String × List FeatureResult)) :
    (input.length < 2 → compare_sources input = ComparatorOutput.insufficient) ∧
    (2 ≤ input.length →
      (compare_sources input).commonField
          = some (commonFlags (input.map (fun snl => sourceFlags snl.2))) ∧
      ((compare_sources input).conclusionField
            = some "Likely AI (Artifacts present in all sources)" ↔
          ∃ f ∈ commonFlags (input.map (fun snl => sourceFlags snl.2)),
            isAIIndicator f = true) ∧
      ((compare_sources input).conclusionField
            = some "Clean / High variation between sources" ↔
          commonFlags (input.map (fun snl => sourceFlags snl.2)) = ∅) ∧
      ((compare_sources input).conclusionField = some "Inconclusive" ↔
          ((¬ ∃ f ∈ commonFlags (input.map (fun snl => sourceFlags snl.2)),
              isAIIndicator f = true) ∧
            commonFlags (input.map (fun snl => sourceFlags snl.2)) ≠ ∅))) := by
  constructor
  · intro h
    unfold compare_sources
    rw [if_pos h]
  · intro h2
    have hn : ¬ input.length < 2 := not_lt.mpr h2
    unfold compare_sources
    rw [if_neg hn]
    dsimp only [ComparatorOutput.commonField, ComparatorOutput.conclusionField]
    set common := commonFlags (input.map (fun snl => sourceFlags snl.2)) with hc
    have hfilter : (common.filter (fun f => isAIIndicator f = true)).Nonempty ↔
        ∃ f ∈ common, isAIIndicator f = true := Finset.filter_nonempty_iff
    refine ⟨rfl, ?_, ?_, ?_⟩
    · by_cases hai : (common.filter (fun f => isAIIndicator f = true)).Nonempty
      · simp only [if_pos hai]
        exact ⟨fun _ => hfilter.mp hai, fun _ => by simp⟩
      · simp only [if_neg hai]
        constructor
        · intro h
          split_ifs at h <;> simp_all
        · intro h
          exact absurd (hfilter.mpr h) hai
    · by_cases hai : (common.filter (fun f => isAIIndicator f = true)).Nonempty
      · simp only [if_pos hai]
        constructor
        · intro h
          simp_all
        · intro h
          rcases hfilter.mp hai with ⟨f, hf, _⟩
          rw [h] at hf
          exact absurd hf (Finset.not_mem_empty f)
      · simp only [if_neg hai]
        by_cases hemp : common = ∅
        · simp only [if_pos hemp]
          exact ⟨fun _ => hemp, fun _ => by simp⟩
        · simp only [if_neg hemp]
          exact ⟨fun h => by simp_all, fun h => absurd h hemp⟩
    · by_cases hai : (common.filter (fun f => isAIIndicator f = true)).Nonempty
      · simp only [if_pos hai]
        constructor
        · intro h
          simp_all
        · rintro ⟨hno, _⟩
          exact absurd (hfilter.mp hai) hno
      · simp only [if_neg hai]
        by_cases hemp : common = ∅
        · simp only [if_pos hemp]
          constructor
          · intro h
            simp_all
          · rintro ⟨_, hne⟩
            exact absurd hemp hne
        · simp only [if_neg hemp]
          exact ⟨fun _ => ⟨fun h => absurd (hfilter.mpr h) hai, hemp⟩, fun _ => by simp⟩

/-- Witness for `comparator_conclusions`: a single source yields the
insufficient status; two sources sharing only a hard-frequency-cutoff flag
conclude "Likely AI"; two sources sharing no flag conclude "Clean". -/
theorem comparator_conclusions_witness :
    compare_sources [("solo", [])] = ComparatorOutput.insufficient ∧
    (compare_sources
        [("mp3",
          [{ feature_name := "frequency_cutoff",
             flags := ["Hard frequency cutoff detected at 16.0kHz"] }]),
         ("flac",
          [{ feature_name := "frequency_cutoff",
             flags := ["Hard frequency cutoff detected at 16.0kHz"] }])]).conclusionField
      = some "Likely AI (Artifacts present in all sources)" ∧
    (compare_sources
        [("mp3", [{ feature_name := "tempo_stability", flags := ["flag one"] }]),
         ("flac",
          [{ feature_name := "tempo_stability",
             flags := ["flag two"] }])]).conclusionField
      = some "Clean / High variation between sources" := by
  refine ⟨(comparator_conclusions [("solo", [])]).1 (by norm_num), ?_, ?_⟩
  · exact ((comparator_conclusions _).2 (by norm_num)).2.1.mpr
      ⟨"Hard frequency cutoff detected at 16.0kHz", by decide, by decide⟩
  · exact ((comparator_conclusions _).2 (by norm_num)).2.2.1.mpr (by decide)

end MusicTruth
